import Mathlib

/-!
Verification of the `test-langfuse` demonstration script
(`src/test-langfuse/main.py`).

The script is a linear three-step program:
1. bootstrap: four environment-variable assignments performed at import time;
2. one synchronous chat-completion call through an OpenAI-compatible client
   pointed at Anthropic's endpoint;
3. printing the first choice's message content.

We embed it as pure functions. The process environment is a partial map
`String → Option String`; the network is an oracle mapping the outbound
request to either an API-level error or a structured response. A run
records the environment writes performed, the requests issued, the lines
written to standard output, and the exit status.
-/

namespace TestLangfuse

/-- A role/content pair, as in the `messages` list and in `response.choices[i].message`. -/
structure ChatMessage where
  role : String
  content : String
deriving DecidableEq, Repr

/-- One candidate completion returned by the API: `choices[i]` exposes `.message`. -/
structure Choice where
  message : ChatMessage
deriving DecidableEq, Repr

/-- The response object: only its `choices` list is ever inspected by the script. -/
structure ChatResponse where
  choices : List Choice
deriving DecidableEq, Repr

/-- Configuration of the `OpenAI(...)` client constructed in `main`:
`api_key=os.environ.get("ANTHROPIC_API_KEY")` (an optional string) and
`base_url="https://api.anthropic.com/v1/"`. -/
structure ClientConfig where
  api_key : Option String
  base_url : String
deriving DecidableEq, Repr

/-- The outbound chat-completion request built by
`client.chat.completions.create(model=..., messages=...)`, together with the
configuration of the client that issues it. -/
structure ChatRequest where
  client : ClientConfig
  model : String
  messages : List ChatMessage
deriving DecidableEq, Repr

/-- Failure modes of the client call, all propagated unhandled by the script:
authentication failure, network unreachability, a non-2xx HTTP status, or a
malformed response body. -/
inductive ApiError where
  | authFailure : ApiError
  | networkUnreachable : ApiError
  | httpError : Nat → ApiError
  | malformedBody : ApiError
deriving DecidableEq, Repr

/-- Errors on which the process terminates abnormally: an error raised by the
client call, or the index error raised by `response.choices[0]` when the
`choices` list is empty. -/
inductive ScriptError where
  | api : ApiError → ScriptError
  | indexError : ScriptError
deriving DecidableEq, Repr

/-- The process environment: a partial map from variable names to values. -/
def Env : Type := String → Option String

/-- `os.environ[k] = v`: pointwise update of the environment. -/
def Env.set (env : Env) (k v : String) : Env :=
  fun k' => if k' = k then some v else env k'

/-- The network, as seen by the script: one synchronous request/response
exchange that either errors or yields a structured response. -/
def Net : Type := ChatRequest → Except ApiError ChatResponse

/-- The four `os.environ[...] = ...` assignments of the bootstrap section,
in program order (main.py lines 5-10). -/
def bootstrapWrites : List (String × String) :=
  [("LANGFUSE_PUBLIC_KEY", "pk-lf.."),
   ("LANGFUSE_SECRET_KEY", "sk-lf-.."),
   ("LANGFUSE_BASE_URL", "http://localhost:3000"),
   ("ANTHROPIC_API_KEY", "sk-..")]

/-- The environment after the bootstrap assignments have been applied to an
initial environment, in order. -/
def bootstrap (env : Env) : Env :=
  bootstrapWrites.foldl (fun e kv => e.set kv.1 kv.2) env

/-- The `OpenAI(...)` client constructed in `main`: its key is read from the
`ANTHROPIC_API_KEY` environment variable at construction time, its base URL is
the Anthropic endpoint literal. -/
def scriptClient (env : Env) : ClientConfig :=
  ⟨env "ANTHROPIC_API_KEY", "https://api.anthropic.com/v1/"⟩

/-- The fixed two-message conversation sent on every run. -/
def scriptMessages : List ChatMessage :=
  [⟨"system", "You are a helpful assistant."⟩, ⟨"user", "Who are you?"⟩]

/-- The single outbound request built by `client.chat.completions.create`:
the literal model name and the fixed two-message list, issued through the
client constructed from the current environment. -/
def scriptRequest (env : Env) : ChatRequest :=
  ⟨scriptClient env, "claude-opus-4-20250514", scriptMessages⟩

/-- Observable outcome of one execution of `main()`: the requests issued, the
lines written to standard output, and the exit status. -/
structure RunResult where
  requests : List ChatRequest
  stdout : List String
  exit : Except ScriptError Unit
deriving Repr

/-- The body of `main()`: construct the client, perform the single blocking
call, and on success print `response.choices[0].message.content`. Any error
from the call propagates; `choices[0]` on an empty list raises an index error
before anything is printed. -/
def mainRun (env : Env) (net : Net) : RunResult :=
  let req := scriptRequest env
  match net req with
  | Except.error e => ⟨[req], [], Except.error (ScriptError.api e)⟩
  | Except.ok response =>
    match response.choices with
    | [] => ⟨[req], [], Except.error ScriptError.indexError⟩
    | c :: _ => ⟨[req], [c.message.content], Except.ok ()⟩

/-- Observable outcome of one execution of the whole script, including the
environment writes performed during bootstrap. -/
structure ProgResult where
  envWrites : List (String × String)
  requests : List ChatRequest
  stdout : List String
  exit : Except ScriptError Unit
deriving Repr

/-- The whole script: bootstrap writes the four environment variables, then
`main()` runs against the resulting environment. `main` performs no further
environment writes. -/
def scriptProg (env0 : Env) (net : Net) : ProgResult :=
  let env := bootstrap env0
  let r := mainRun env net
  ⟨bootstrapWrites, r.requests, r.stdout, r.exit⟩

/-- Process exit status: 0 on normal return, nonzero on an unhandled error. -/
def exitCode : Except ScriptError Unit → Nat
  | Except.ok _ => 0
  | Except.error _ => 1

end TestLangfuse

namespace TestLangfuse

/-- `main` issues exactly one outbound request on every run, in every branch. -/
theorem mainRun_requests (env : Env) (net : Net) :
    (mainRun env net).requests = [scriptRequest env] := by
  simp only [mainRun]
  cases hn : net (scriptRequest env) with
  | error e => rfl
  | ok r =>
    obtain ⟨choices⟩ := r
    cases choices <;> rfl

/-- A concrete choice used to instantiate the theorems below. -/
def demoChoice : Choice := ⟨⟨"assistant", "I am Claude."⟩⟩

/-- A concrete well-formed response with one choice. -/
def demoResponse : ChatResponse := ⟨[demoChoice]⟩

/-- A concrete response agreeing with `demoResponse` on the first choice's
content but differing everywhere else (role, number of choices). -/
def altResponse : ChatResponse :=
  ⟨[⟨⟨"bot", "I am Claude."⟩⟩, ⟨⟨"assistant", "something else"⟩⟩]⟩

/-- The empty initial environment. -/
def envNone : Env := fun _ => none

/-- A network that answers every request with `demoResponse`. -/
def okNet : Net := fun _ => Except.ok demoResponse

/-- A network that answers every request with `altResponse`. -/
def altNet : Net := fun _ => Except.ok altResponse

/-- A network on which every call fails with an authentication error. -/
def failNet : Net := fun _ => Except.error ApiError.authFailure

/-- A network that answers with a response whose choices list is empty. -/
def emptyNet : Net := fun _ => Except.ok ⟨[]⟩

/-- C1: whenever the endpoint returns a well-formed response whose choices
list has at least one entry, the script writes exactly the string
`choices[0].message.content` to standard output as one line, and writes
nothing else to standard output. -/
theorem stdout_is_exactly_first_choice_content (env : Env) (net : Net)
    (resp : ChatResponse) (c : Choice) (rest : List Choice)
    (hnet : net (scriptRequest env) = Except.ok resp)
    (hch : resp.choices = c :: rest) :
    (mainRun env net).stdout = [c.message.content] := by
  simp only [mainRun, hnet, hch]

/-- Witness for C1 at a concrete environment, network and response. -/
theorem stdout_is_exactly_first_choice_content_witness :
    okNet (scriptRequest envNone) = Except.ok demoResponse ∧
    demoResponse.choices = demoChoice :: [] ∧
    (mainRun envNone okNet).stdout = ["I am Claude."] :=
  ⟨rfl, rfl,
    stdout_is_exactly_first_choice_content envNone okNet demoResponse
      demoChoice [] rfl rfl⟩

/-- C2: every run issues exactly one outbound chat-completion request, with
exactly the model identifier "claude-opus-4-20250514" and exactly the ordered
two-message list (system instruction, then user question); on success stdout
is the returned content string verbatim. -/
theorem single_request_fixed_payload (env : Env) (net : Net) :
    (mainRun env net).requests = [scriptRequest env] ∧
    (scriptRequest env).model = "claude-opus-4-20250514" ∧
    (scriptRequest env).messages =
      [⟨"system", "You are a helpful assistant."⟩, ⟨"user", "Who are you?"⟩] ∧
    (∀ (resp : ChatResponse) (c : Choice) (rest : List Choice),
      net (scriptRequest env) = Except.ok resp →
      resp.choices = c :: rest →
      (mainRun env net).stdout = [c.message.content]) := by
  refine ⟨mainRun_requests env net, rfl, rfl, ?_⟩
  intro resp c rest hnet hch
  simp only [mainRun, hnet, hch]

/-- Witness for C2 at a concrete environment, network and response,
discharging the success hypotheses of the stdout conjunct. -/
theorem single_request_fixed_payload_witness :
    (mainRun envNone okNet).requests = [scriptRequest envNone] ∧
    (scriptRequest envNone).model = "claude-opus-4-20250514" ∧
    (scriptRequest envNone).messages =
      [⟨"system", "You are a helpful assistant."⟩, ⟨"user", "Who are you?"⟩] ∧
    (mainRun envNone okNet).stdout = ["I am Claude."] :=
  ⟨(single_request_fixed_payload envNone okNet).1,
    (single_request_fixed_payload envNone okNet).2.1,
    (single_request_fixed_payload envNone okNet).2.2.1,
    (single_request_fixed_payload envNone okNet).2.2.2 demoResponse demoChoice
      [] rfl rfl⟩

/-- C3: every failure of the client call propagates unhandled: the run ends
with that error, the exit status is nonzero, and nothing was written to
standard output. -/
theorem client_failure_propagates_unhandled (env : Env) (net : Net)
    (e : ApiError) (hnet : net (scriptRequest env) = Except.error e) :
    (mainRun env net).exit = Except.error (ScriptError.api e) ∧
    exitCode (mainRun env net).exit ≠ 0 ∧
    (mainRun env net).stdout = [] := by
  simp [mainRun, hnet, exitCode]

/-- Witness for C3 on a network whose call fails with an auth error. -/
theorem client_failure_propagates_unhandled_witness :
    failNet (scriptRequest envNone) = Except.error ApiError.authFailure ∧
    ((mainRun envNone failNet).exit =
        Except.error (ScriptError.api ApiError.authFailure) ∧
      exitCode (mainRun envNone failNet).exit ≠ 0 ∧
      (mainRun envNone failNet).stdout = []) :=
  ⟨rfl,
    client_failure_propagates_unhandled envNone failNet ApiError.authFailure rfl⟩

/-- C4: if the response's choices list is empty, accessing the first entry
fails with an index error and the run terminates without printing anything. -/
theorem empty_choices_index_error (env : Env) (net : Net)
    (resp : ChatResponse) (hnet : net (scriptRequest env) = Except.ok resp)
    (hch : resp.choices = []) :
    (mainRun env net).exit = Except.error ScriptError.indexError ∧
    exitCode (mainRun env net).exit ≠ 0 ∧
    (mainRun env net).stdout = [] := by
  simp [mainRun, hnet, hch, exitCode]

/-- Witness for C4 on a network returning a response with zero choices. -/
theorem empty_choices_index_error_witness :
    emptyNet (scriptRequest envNone) = Except.ok ⟨[]⟩ ∧
    ((mainRun envNone emptyNet).exit = Except.error ScriptError.indexError ∧
      exitCode (mainRun envNone emptyNet).exit ≠ 0 ∧
      (mainRun envNone emptyNet).stdout = []) :=
  ⟨rfl, empty_choices_index_error envNone emptyNet ⟨[]⟩ rfl rfl⟩

end TestLangfuse

namespace TestLangfuse

/-- C5: whatever value is stored into `ANTHROPIC_API_KEY` before client
construction is the key the client is constructed with; in particular the
script's client carries exactly the value written by bootstrap, which is the
environment value at construction time. -/
theorem client_key_is_env_value (env : Env) (v : String) :
    (scriptClient (Env.set env "ANTHROPIC_API_KEY" v)).api_key = some v ∧
    (scriptRequest (bootstrap env)).client.api_key =
      bootstrap env "ANTHROPIC_API_KEY" ∧
    (scriptClient (bootstrap env)).api_key = some "sk-.." := by
  refine ⟨?_, rfl, ?_⟩
  · simp [scriptClient, Env.set]
  · simp [scriptClient, bootstrap, bootstrapWrites, Env.set]

/-- C6: bootstrap performs exactly four environment writes, to
`LANGFUSE_PUBLIC_KEY`, `LANGFUSE_SECRET_KEY`, `LANGFUSE_BASE_URL` and
`ANTHROPIC_API_KEY` in that order, each key written exactly once and to a
plain string literal; the whole run performs no other environment write, and
the writes precede the client construction inside `main`. -/
theorem bootstrap_writes_exactly_four (env0 : Env) (net : Net) :
    (scriptProg env0 net).envWrites = bootstrapWrites ∧
    bootstrapWrites.map Prod.fst =
      ["LANGFUSE_PUBLIC_KEY", "LANGFUSE_SECRET_KEY",
       "LANGFUSE_BASE_URL", "ANTHROPIC_API_KEY"] ∧
    (bootstrapWrites.map Prod.fst).Nodup ∧
    bootstrapWrites.map Prod.snd =
      ["pk-lf..", "sk-lf-..", "http://localhost:3000", "sk-.."] := by
  exact ⟨rfl, rfl, by decide, rfl⟩

/-- C7: two runs with the same inputs are independent: each issues exactly one
request (no retries), the combined trace holds exactly two requests, and each
run's observable result is the same function of its own network alone, so no
result is cached or memoized across runs. -/
theorem two_runs_two_independent_calls (env0 : Env) (net1 net2 : Net) :
    (scriptProg env0 net1).requests = [scriptRequest (bootstrap env0)] ∧
    (scriptProg env0 net2).requests = [scriptRequest (bootstrap env0)] ∧
    ((scriptProg env0 net1).requests ++ (scriptProg env0 net2).requests).length = 2 ∧
    (net1 = net2 → scriptProg env0 net1 = scriptProg env0 net2) := by
  have h1 := mainRun_requests (bootstrap env0) net1
  have h2 := mainRun_requests (bootstrap env0) net2
  refine ⟨h1, h2, ?_, ?_⟩
  · show ((mainRun (bootstrap env0) net1).requests ++
      (mainRun (bootstrap env0) net2).requests).length = 2
    rw [h1, h2]
    rfl
  · intro h
    rw [h]

/-- Witness for C7 at concrete inputs, discharging the determinism conjunct's
hypothesis at equal networks. -/
theorem two_runs_two_independent_calls_witness :
    (scriptProg envNone okNet).requests = [scriptRequest (bootstrap envNone)] ∧
    ((scriptProg envNone okNet).requests ++
      (scriptProg envNone okNet).requests).length = 2 ∧
    scriptProg envNone okNet = scriptProg envNone okNet :=
  ⟨(two_runs_two_independent_calls envNone okNet okNet).1,
    (two_runs_two_independent_calls envNone okNet okNet).2.2.1,
    (two_runs_two_independent_calls envNone okNet okNet).2.2.2 rfl⟩

/-- C8: the client is constructed with Anthropic's endpoint as its base URL,
so the single outbound request of every run targets that base URL. -/
theorem request_targets_anthropic_base_url (env0 : Env) (net : Net) :
    (scriptClient (bootstrap env0)).base_url = "https://api.anthropic.com/v1/" ∧
    (scriptProg env0 net).requests = [scriptRequest (bootstrap env0)] ∧
    (scriptRequest (bootstrap env0)).client.base_url =
      "https://api.anthropic.com/v1/" :=
  ⟨rfl, mainRun_requests (bootstrap env0) net, rfl⟩

/-- C9: standard output depends only on `choices[0].message.content`: two runs
whose responses agree on that field print identical text, whatever the other
response fields, the further choices, or the environments. -/
theorem stdout_depends_only_on_first_content (env1 env2 : Env)
    (net1 net2 : Net) (r1 r2 : ChatResponse) (c1 c2 : Choice)
    (t1 t2 : List Choice)
    (h1 : net1 (scriptRequest env1) = Except.ok r1)
    (h2 : net2 (scriptRequest env2) = Except.ok r2)
    (hc1 : r1.choices = c1 :: t1) (hc2 : r2.choices = c2 :: t2)
    (hagree : c1.message.content = c2.message.content) :
    (mainRun env1 net1).stdout = (mainRun env2 net2).stdout := by
  simp only [mainRun, h1, h2, hc1, hc2]
  rw [hagree]

/-- Witness for C9: two responses differing in role, extra choices and the
environment, but agreeing on the first choice's content, print the same. -/
theorem stdout_depends_only_on_first_content_witness :
    okNet (scriptRequest envNone) = Except.ok demoResponse ∧
    altNet (scriptRequest (bootstrap envNone)) = Except.ok altResponse ∧
    (mainRun envNone okNet).stdout = (mainRun (bootstrap envNone) altNet).stdout :=
  ⟨rfl, rfl,
    stdout_depends_only_on_first_content envNone (bootstrap envNone) okNet altNet
      demoResponse altResponse demoChoice ⟨⟨"bot", "I am Claude."⟩⟩
      [] [⟨⟨"assistant", "something else"⟩⟩] rfl rfl rfl rfl rfl⟩

/-- C10: after bootstrap the `LANGFUSE_BASE_URL` environment variable equals
the literal "http://localhost:3000" in every run, whatever the initial
environment: the observability endpoint is local, not the EU cloud endpoint
named in the adjacent source comment. -/
theorem langfuse_base_url_is_localhost (env0 : Env) :
    bootstrap env0 "LANGFUSE_BASE_URL" = some "http://localhost:3000" := by
  simp [bootstrap, bootstrapWrites, Env.set]

end TestLangfuse
